import Mathlib

/-!
Verification of the AlmatyMeetups Telegram gatekeeping bot.

We give a shallow embedding of the bot's persistence layer (two sqlite
tables, `requests` and `users`, accessed through single-row CRUD
statements) and of the handlers that the specification's testable
properties speak about: the `/start` entry command, the conversation
completion step, the admin Approve/Decline callbacks, the `/add`
self-registration command, the `/broadcast` fan-out, and the hourly
expiry sweeper.

Tables are lists of rows; SQL timestamps are modelled as integers
(`CURRENT_TIMESTAMP` becomes an explicit `now` argument).  Outcomes of
calls to the external messaging platform are supplied as oracle
parameters, and each outbound side effect a handler performs is
recorded in an `Effect` log.  Exception flow mirrors the Python
sources: bare platform calls raise on any failure, while the
`_handle_telegram_errors` wrapper swallows timeouts, network errors and
`Forbidden` (returning `None`) and re-raises other `TelegramError`s.
-/

/-- Python `f"{x}"` rendering of a nullable string: `None` prints as `"None"`. -/
def pyStr : Option String → String
  | some s => s
  | none => "None"

/-- Python `sub in s` substring test. -/
def strContains (s sub : String) : Bool :=
  (List.range (s.data.length + 1)).any (fun i => sub.data.isPrefixOf (s.data.drop i))

/-- The branch signal used by `approve_request`/`decline_request`:
`"Hide_requester_missing" in str(e) or "CHAT_JOIN_REQUEST_NOT_FOUND" in str(e)`. -/
def isMissingJoinRequestError (e : String) : Bool :=
  strContains e "Hide_requester_missing" || strContains e "CHAT_JOIN_REQUEST_NOT_FOUND"

/-- Python truthiness of a nullable integer (`None` and `0` are falsy). -/
def truthyOpt : Option Nat → Bool
  | none => false
  | some n => n != 0

/-- A row of the `requests` table (`src/src/database/request.py` /
`src/database.py`; the oldest variant lacks the `user_explanation`
column, which its sweeper never reads). -/
structure RequestRow where
  id : Nat
  user_id : Nat
  username : Option String
  first_name : Option String
  last_name : Option String
  status : String
  created_at : Int
  approved_at : Option Int
  admin_message_id : Option Nat
  user_explanation : Option String
deriving DecidableEq

/-- A row of the `users` (ApprovedUser) table (`src/src/database/user.py`). -/
structure UserRow where
  id : Nat
  user_id : Nat
  username : Option String
  first_name : Option String
  last_name : Option String
  approved_at : Int
  last_contacted_at : Option Int
  is_active : Bool
deriving DecidableEq

namespace Request

/-- The fresh row written by `Request.create`'s
`INSERT OR REPLACE ... VALUES (?, ?, ?, ?, 'pending', CURRENT_TIMESTAMP)`. -/
def freshRow (nextId : Nat) (now : Int) (user_id : Nat)
    (username first_name last_name : Option String) : RequestRow :=
  { id := nextId, user_id := user_id, username := username,
    first_name := first_name, last_name := last_name,
    status := "pending", created_at := now, approved_at := none,
    admin_message_id := none, user_explanation := none }

/-- `Request.create`: `INSERT OR REPLACE` on the `UNIQUE(user_id)` key
deletes any conflicting row and inserts the fresh one; returns the new
table (the Python method returns `lastrowid`, modelled by `nextId`). -/
def create (reqs : List RequestRow) (nextId : Nat) (now : Int) (user_id : Nat)
    (username first_name last_name : Option String) : List RequestRow :=
  (reqs.filter (fun r => r.user_id != user_id))
    ++ [freshRow nextId now user_id username first_name last_name]

/-- `Request.get_by_user_id`: `SELECT * FROM requests WHERE user_id = ?`. -/
def get_by_user_id (reqs : List RequestRow) (user_id : Nat) : Option RequestRow :=
  reqs.find? (fun r => r.user_id == user_id)

/-- `Request.get_by_id`: `SELECT * FROM requests WHERE id = ?`. -/
def get_by_id (reqs : List RequestRow) (request_id : Nat) : Option RequestRow :=
  reqs.find? (fun r => r.id == request_id)

/-- `Request.update_user_explanation`:
`UPDATE requests SET user_explanation = ? WHERE id = ?`. -/
def update_user_explanation (reqs : List RequestRow) (request_id : Nat)
    (explanation : String) : List RequestRow :=
  reqs.map (fun r =>
    if r.id == request_id then { r with user_explanation := some explanation } else r)

/-- `Request.update_status`: when the new status is `'approved'` the row
also gets `approved_at = CURRENT_TIMESTAMP`; either branch overwrites
`admin_message_id`. -/
def update_status (reqs : List RequestRow) (request_id : Nat) (status : String)
    (admin_message_id : Option Nat) (now : Int) : List RequestRow :=
  reqs.map (fun r =>
    if r.id == request_id then
      if status == "approved" then
        { r with status := status, approved_at := some now,
                 admin_message_id := admin_message_id }
      else
        { r with status := status, admin_message_id := admin_message_id }
    else r)

end Request

namespace Users

/-- The fresh row written by `Users.create`'s `INSERT OR REPLACE`
(`approved_at = CURRENT_TIMESTAMP`, schema defaults `last_contacted_at
NULL` and `is_active 1`). -/
def freshRow (nextId : Nat) (now : Int) (user_id : Nat)
    (username first_name last_name : Option String) : UserRow :=
  { id := nextId, user_id := user_id, username := username,
    first_name := first_name, last_name := last_name,
    approved_at := now, last_contacted_at := none, is_active := true }

/-- `Users.create`: `INSERT OR REPLACE` on the `UNIQUE(user_id)` key. -/
def create (users : List UserRow) (nextId : Nat) (now : Int) (user_id : Nat)
    (username first_name last_name : Option String) : List UserRow :=
  (users.filter (fun u => u.user_id != user_id))
    ++ [freshRow nextId now user_id username first_name last_name]

/-- `Users.get_by_id`: `SELECT * FROM users WHERE user_id = ? AND is_active = 1`. -/
def get_by_id (users : List UserRow) (user_id : Nat) : Option UserRow :=
  users.find? (fun u => u.user_id == user_id && u.is_active)

/-- `Users.get_all_active`: `SELECT * FROM users WHERE is_active = 1`
(the `ORDER BY approved_at DESC` only permutes the result; the
broadcast claims are order-independent, so we keep table order). -/
def get_all_active (users : List UserRow) : List UserRow :=
  users.filter (fun u => u.is_active)

/-- `Users.update`: `UPDATE users SET username = ?, first_name = ?,
last_name = ?, approved_at = CURRENT_TIMESTAMP WHERE user_id = ?`. -/
def update (users : List UserRow) (user_id : Nat)
    (username first_name last_name : Option String) (now : Int) : List UserRow :=
  users.map (fun u =>
    if u.user_id == user_id then
      { u with username := username, first_name := first_name,
               last_name := last_name, approved_at := now }
    else u)

/-- `Users.upsert`: active-filtered lookup, then update-in-place or
`create`; returns the table and the reported row id. -/
def upsert (users : List UserRow) (nextId : Nat) (now : Int) (user_id : Nat)
    (username first_name last_name : Option String) : List UserRow × Nat :=
  match get_by_id users user_id with
  | some existing_user =>
      (update users user_id username first_name last_name now, existing_user.id)
  | none =>
      (create users nextId now user_id username first_name last_name, nextId)

/-- `Users.update_last_contacted`:
`UPDATE users SET last_contacted_at = CURRENT_TIMESTAMP WHERE user_id = ?`. -/
def update_last_contacted (users : List UserRow) (user_id : Nat) (now : Int) :
    List UserRow :=
  users.map (fun u =>
    if u.user_id == user_id then { u with last_contacted_at := some now } else u)

/-- `Users.deactivate`: `UPDATE users SET is_active = 0 WHERE user_id = ?`. -/
def deactivate (users : List UserRow) (user_id : Nat) : List UserRow :=
  users.map (fun u =>
    if u.user_id == user_id then { u with is_active := false } else u)

end Users

/-! ## Message catalog (`src/src/messages/texts.py`, `src/texts.py`) -/

def PENDING_REQUEST_MSG : String :=
  "⏳ You already have a pending request. Please wait for admin approval."

def WELCOME_TEXT : String :=
  "👋 Welcome to `Almaty Meetups`!\n\nWe are a local community of foreigners and locals based in Almaty, Kazakhstan.\n\nOur purpose is to meet and connect with travelers and people living in Almaty. We frequently organize gatherings and events to meet new people and make new friends.\n\nTo join our group, please tell us how you found out about us:"

def ADMIN_PANEL_MESSAGE : String :=
  "🔧 **Admin Panel**\n\nYou\x27re logged in as an admin! Here are your available commands:\n\n📊 `/stats` - View user statistics\n📢 `/broadcast <message>` - Send message to all approved users\n❓ `/help` - Show detailed help"

def REQUEST_NOT_FOUND : String := "❌ Request not found."

def SUBMITTED_MSG : String :=
  "✅ Your application has been submitted! We\x27ll review it and get back to you soon."

def USER_APPROVED_DM : String :=
  "🎉 Congratulations! Your application has been approved. Welcome to our community!"

def USER_DECLINED_DM : String :=
  "❌ Unfortunately, your application has been declined. Thank you for your interest in our community."

def admin_approved_added (first_name : String) : String :=
  "✅ **" ++ first_name ++ "** has been **approved** and added to the group!"

def admin_approved_link_sent (first_name : String) : String :=
  "✅ **" ++ first_name ++ "** approved. Single-use invite link has been sent to the user."

/-- `ADMIN_DECLINED_MSG.format(first_name=...)`. -/
def ADMIN_DECLINED_MSG (first_name : String) : String :=
  "❌ **" ++ first_name ++ "** has been **declined**."

def user_approved_with_link (invite_link : String) : String :=
  "🎉 You have been approved!\n\nTap this one-time invite link to join the group:\n" ++ invite_link ++ "\n\nNote: This link works once and expires after first use."

/-- `ERROR_INVITE_LINK_FAILED.format(user_id=..., error=...)`. -/
def ERROR_INVITE_LINK_FAILED (user_id : Nat) (error : String) : String :=
  "❌ Failed to send invite link to user " ++ toString user_id ++ ": " ++ error

/-- `ERROR_APPROVE_FAILED.format(user_id=..., error=...)`. -/
def ERROR_APPROVE_FAILED (user_id : Nat) (error : String) : String :=
  "❌ Failed to approve user " ++ toString user_id ++ ": " ++ error

/-- `ERROR_DECLINE_FAILED.format(user_id=..., error=...)`. -/
def ERROR_DECLINE_FAILED (user_id : Nat) (error : String) : String :=
  "❌ Failed to decline user " ++ toString user_id ++ ": " ++ error

def ADMIN_ONLY_COMMAND : String := "❌ This command is only available to admins."

def BROADCAST_NO_MESSAGE : String :=
  "❌ Please provide a message to broadcast.\nUsage: /broadcast Your message here"

def BROADCAST_NO_USERS : String := "❌ No approved users found."

def broadcast_summary (successful_sends failed_sends total_users : Nat) : String :=
  "📢 **Broadcast Complete**\n\n✅ Successfully sent: " ++ toString successful_sends ++ "\n❌ Failed to send: " ++ toString failed_sends ++ "\n👥 Total users: " ++ toString total_users

/-- The inline already-registered reply of `add_command`. -/
def ADD_ALREADY_IN_COMMUNITY_MSG : String :=
  "✅ **You\x27re already in our community!**\n\nYou\x27re already registered in our user database. Your information has been updated. You\x27ll receive community updates and announcements."

/-- The inline welcome reply of `add_command`. -/
def ADD_WELCOME_MSG : String :=
  "🎉 **Welcome to our community!**\n\nYou\x27ve been successfully added to our user database. You\x27ll now receive community updates, announcements, and meetup notifications.\n\nThank you for joining Almaty Meetups! 🇰🇿"

/-- The inline error reply of `add_command`'s blanket `except Exception`. -/
def ADD_ERROR_MSG : String :=
  "❌ **Something went wrong**\n\nWe couldn\x27t add you to our community database right now. Please try again later or contact an admin for assistance."

/-- Inline moderator note of the expiry sweeper (`src/bot.py`). -/
def expired_admin_note (first_name : String) : String :=
  "⏰ **" ++ first_name ++ "**\x27s request has expired and been automatically rejected."

/-- Inline applicant DM of the expiry sweeper (`src/bot.py`). -/
def EXPIRED_USER_MSG : String :=
  "⏰ Your application has expired (24 hours passed without admin action).\n\nYou can submit a new application anytime with /start"

/-! ## Category catalog (`OPTIONS_CONFIG` in `src/texts.py`; the later
revision's `config/questions.py` mirrors it as `QUESTIONS`). -/

structure OptionConfig where
  button_text : String
  question : String
  explanation_template : String
deriving DecidableEq

def OPTIONS_CONFIG : List (String × OptionConfig) :=
  [("couchsurfing",
    { button_text := "🏠 Couchsurfing",
      question := "What\x27s your Couchsurfing profile link or username?",
      explanation_template := "Found through Couchsurfing. Account: \x7banswer\x7d" }),
   ("invited",
    { button_text := "👥 Someone invited me",
      question := "What is the Telegram username of the person who invited you to the group?",
      explanation_template := "Invited by: \x7banswer\x7d" }),
   ("facebook",
    { button_text := "📘 Facebook",
      question := "What\x27s your Facebook profile link or which Facebook group did you find us through?",
      explanation_template := "Found through Facebook: \x7banswer\x7d" }),
   ("other",
    { button_text := "🔍 Other",
      question := "How did you find out about the group? Please provide more details and a link if possible.",
      explanation_template := "Other: \x7banswer\x7d" })]

/-- Python `template.format(answer=answer)` for templates whose only
replacement field is `answer` (every occurrence is substituted). -/
def pyFormatAnswer (template answer : String) : String :=
  String.intercalate answer (template.splitOn "\x7banswer\x7d")

/-! ## External-call outcomes and recorded side effects -/

/-- Outcome of one call to the messaging platform.  `timedOut`,
`networkError` and `forbidden` are the `TimedOut` / `NetworkError` /
`Forbidden` exception classes (all subclasses of `TelegramError`);
`tgError e` is any other `TelegramError` with `str(e) = e`. -/
inductive CallResult where
  | ok
  | timedOut
  | networkError
  | forbidden
  | tgError (e : String)
deriving DecidableEq

/-- `str(e)` of the exception a bare (unwrapped) call raises, if any. -/
def CallResult.errStr : CallResult → Option String
  | .ok => none
  | .timedOut => some "Timed out"
  | .networkError => some "Network error"
  | .forbidden => some "Forbidden"
  | .tgError e => some e

/-- `_handle_telegram_errors` swallows `TimedOut`, `NetworkError` and
`Forbidden` (returning `None`) and re-raises any other `TelegramError`:
the outcomes that make a `_safe_send_message` call raise. -/
def CallResult.raisesInSafeSend : CallResult → Option String
  | .tgError e => some e
  | _ => none

/-- Whether `_safe_send_message` returns a non-`None` result. -/
def CallResult.isOk : CallResult → Bool
  | .ok => true
  | _ => false

/-- Destination of an outbound message. -/
inductive Chat where
  | admin
  | caller
  | user (uid : Nat)
deriving DecidableEq

/-- One attempted outbound side effect on the messaging platform. -/
inductive Effect where
  | answeredCallback
  | editedMessage (text : String)
  | sentMessage (chat : Chat) (text : String)
  | sentAdminApplication (request_id : Nat) (explanation : String)
  | deletedAdminMessage (message_id : Nat)
  | approvedJoinRequest (uid : Nat)
  | declinedJoinRequest (uid : Nat)
  | createdInviteLink
deriving DecidableEq

/-! ## User handlers (`src/src/handlers/user_handlers.py`) -/

/-- The pending-request guard of `start_command`:
`if existing_request and existing_request["status"] == "pending"`. -/
def isPendingOpt : Option RequestRow → Bool
  | some r => r.status == "pending"
  | none => false

/-- `ApplicationHandlers.start_command`.  Admins get the admin panel and
stop; an applicant with a pending request gets only the pending notice;
otherwise a fresh request row is created and the welcome menu is sent.
`isAdmin` is the result of the live `is_admin_user` membership lookup.
Returns the new `requests` table and the attempted side effects. -/
def start_command (isAdmin : Bool) (reqs : List RequestRow) (nextId : Nat) (now : Int)
    (uid : Nat) (username first_name last_name : Option String) :
    List RequestRow × List Effect :=
  if isAdmin then
    (reqs, [Effect.sentMessage (.user uid) ADMIN_PANEL_MESSAGE])
  else if isPendingOpt (Request.get_by_user_id reqs uid) then
    (reqs, [Effect.sentMessage (.user uid) PENDING_REQUEST_MSG])
  else
    (Request.create reqs nextId now uid username first_name last_name,
     [Effect.sentMessage (.user uid) WELCOME_TEXT])

/-- The explanation string computed by `handle_complete_application`:
the catalog template applied to the answer, or the f-string fallback
`f"Unknown option '{selected_option}': {answer}"`. -/
def computeExplanation (selected_option answer : String) : String :=
  match OPTIONS_CONFIG.find? (fun p => p.1 == selected_option) with
  | some p => pyFormatAnswer p.2.explanation_template answer
  | none => "Unknown option \x27" ++ selected_option ++ "\x27: " ++ answer

/-- `submit_to_admins`: sends the moderator message; on success stores
the sent message's id via `update_status(request_id, "pending", mid)`;
any delivery failure is swallowed (`except Exception: pass`). -/
def submit_to_admins (reqs : List RequestRow) (request_id : Nat) (explanation : String)
    (sendRes : CallResult) (admin_msg_id : Nat) (now : Int) :
    List RequestRow × List Effect :=
  let effs := [Effect.sentAdminApplication request_id explanation]
  match sendRes with
  | .ok => (Request.update_status reqs request_id "pending" (some admin_msg_id) now, effs)
  | _ => (reqs, effs)

/-- `ApplicationHandlers.handle_complete_application`: renders the
explanation from the selected category and captured answer, persists it
on the request row, submits to the moderator channel, and confirms. -/
def handle_complete_application (reqs : List RequestRow) (request_id : Nat)
    (selected_option answer : String) (sendRes : CallResult) (admin_msg_id : Nat)
    (now : Int) : List RequestRow × List Effect :=
  let explanation := computeExplanation selected_option answer
  let reqs1 := Request.update_user_explanation reqs request_id explanation
  let (reqs2, effs) := submit_to_admins reqs1 request_id explanation sendRes admin_msg_id now
  (reqs2, [Effect.answeredCallback] ++ effs ++ [Effect.editedMessage SUBMITTED_MSG])

/-- The method names the `Users` class defines
(`src/src/database/user.py`): Python attribute lookup on `db.users`
resolves against exactly these. -/
def usersClassMethods : List String :=
  ["build", "create", "get_by_id", "get_all_active", "update",
   "upsert", "update_last_contacted", "deactivate"]

/-- The attribute `add_command` invokes on `db.users`. -/
def addCommandUpsertAttr : String := "upsert_user"

/-- `ApplicationHandlers.add_command`: looks up the caller, then calls
`db.users.upsert_user(...)`.  If the `Users` class defined that
attribute the handler would upsert and reply already-registered or
welcome; since attribute lookup fails, the `AttributeError` is caught
by the blanket `except Exception` and the error reply is sent with the
table untouched. -/
def add_command (users : List UserRow) (nextId : Nat) (now : Int) (uid : Nat)
    (username first_name last_name : Option String) : List UserRow × List Effect :=
  let existing_user := Users.get_by_id users uid
  if usersClassMethods.contains addCommandUpsertAttr then
    let users2 := (Users.upsert users nextId now uid username first_name last_name).1
    if existing_user.isSome then
      (users2, [Effect.sentMessage (.user uid) ADD_ALREADY_IN_COMMUNITY_MSG])
    else
      (users2, [Effect.sentMessage (.user uid) ADD_WELCOME_MSG])
  else
    (users, [Effect.sentMessage (.user uid) ADD_ERROR_MSG])

/-! ## Admin handlers (`src/src/handlers/admin_handlers.py`) -/

/-- Outcomes of the external calls one Approve/Decline press makes. -/
structure AdminOracle where
  directApprove : CallResult
  declineJoin : CallResult
  createInvite : CallResult
  inviteLink : String
  deleteMsg : CallResult
  sendAdminNote : CallResult
  sendUserDM : CallResult

/-- Intermediate handler state: both tables plus the effect log; the
`Option String` is a pending raised `TelegramError` (its `str`). -/
abbrev AdminStep := (List RequestRow × List UserRow × List Effect) × Option String

/-- `AdminHandlers._complete_approval`: set status `approved` (with
timestamp and the moderator message id), upsert the ApprovedUser row,
delete the moderator message (bare call: raises on failure), post the
success note and DM the applicant (both via `_safe_send_message`). -/
def complete_approval (reqs : List RequestRow) (users : List UserRow)
    (nextUid : Nat) (now : Int) (request : RequestRow) (request_id qmid : Nat)
    (o : AdminOracle) : AdminStep :=
  let reqs1 := Request.update_status reqs request_id "approved" (some qmid) now
  let users1 := (Users.upsert users nextUid now request.user_id request.username
    request.first_name request.last_name).1
  let effs := [Effect.deletedAdminMessage qmid]
  match o.deleteMsg.errStr with
  | some e => ((reqs1, users1, effs), some e)
  | none =>
    let effs := effs ++
      [Effect.sentMessage .admin (admin_approved_added (pyStr request.first_name))]
    match o.sendAdminNote.raisesInSafeSend with
    | some e => ((reqs1, users1, effs), some e)
    | none =>
      let effs := effs ++ [Effect.sentMessage (.user request.user_id) USER_APPROVED_DM]
      match o.sendUserDM.raisesInSafeSend with
      | some e => ((reqs1, users1, effs), some e)
      | none => ((reqs1, users1, effs), none)

/-- `AdminHandlers._handle_direct_approval`: bare
`approve_chat_join_request`, then `_complete_approval`. -/
def handle_direct_approval (reqs : List RequestRow) (users : List UserRow)
    (nextUid : Nat) (now : Int) (request : RequestRow) (request_id qmid : Nat)
    (o : AdminOracle) : AdminStep :=
  let effs0 := [Effect.approvedJoinRequest request.user_id]
  match o.directApprove.errStr with
  | some e => ((reqs, users, effs0), some e)
  | none =>
    let ((r1, u1, e1), exc) := complete_approval reqs users nextUid now request request_id qmid o
    ((r1, u1, effs0 ++ e1), exc)

/-- `AdminHandlers._handle_invite_link_approval`: bare
`create_chat_invite_link` first; only on success are the status update,
upsert, message deletion and notifications performed. -/
def handle_invite_link_approval (reqs : List RequestRow) (users : List UserRow)
    (nextUid : Nat) (now : Int) (request : RequestRow) (request_id qmid : Nat)
    (o : AdminOracle) : AdminStep :=
  let effs0 := [Effect.createdInviteLink]
  match o.createInvite.errStr with
  | some e => ((reqs, users, effs0), some e)
  | none =>
    let reqs1 := Request.update_status reqs request_id "approved" (some qmid) now
    let users1 := (Users.upsert users nextUid now request.user_id request.username
      request.first_name request.last_name).1
    let effs := effs0 ++ [Effect.deletedAdminMessage qmid]
    match o.deleteMsg.errStr with
    | some e => ((reqs1, users1, effs), some e)
    | none =>
      let effs := effs ++
        [Effect.sentMessage .admin (admin_approved_link_sent (pyStr request.first_name))]
      match o.sendAdminNote.raisesInSafeSend with
      | some e => ((reqs1, users1, effs), some e)
      | none =>
        let effs := effs ++
          [Effect.sentMessage (.user request.user_id) (user_approved_with_link o.inviteLink)]
        match o.sendUserDM.raisesInSafeSend with
        | some e => ((reqs1, users1, effs), some e)
        | none => ((reqs1, users1, effs), none)

/-- `AdminHandlers.approve_request`: direct grant first; on a
missing-join-request `TelegramError` fall back to the invite link; if
link generation (or the fallback) raises, post
`ERROR_INVITE_LINK_FAILED`; any other `TelegramError` from the direct
path posts `ERROR_APPROVE_FAILED`.  The request row is looked up by the
id encoded in the button payload. -/
def approve_request (reqs : List RequestRow) (users : List UserRow)
    (nextUid : Nat) (now : Int) (rid qmid : Nat) (o : AdminOracle) :
    List RequestRow × List UserRow × List Effect :=
  let effsA := [Effect.answeredCallback]
  match Request.get_by_id reqs rid with
  | none => (reqs, users, effsA ++ [Effect.editedMessage REQUEST_NOT_FOUND])
  | some request =>
    let ((r1, u1, e1), exc) := handle_direct_approval reqs users nextUid now request rid qmid o
    match exc with
    | none => (r1, u1, effsA ++ e1)
    | some e =>
      if isMissingJoinRequestError e then
        let ((r2, u2, e2), exc2) :=
          handle_invite_link_approval r1 u1 nextUid now request rid qmid o
        match exc2 with
        | none => (r2, u2, effsA ++ e1 ++ e2)
        | some gen_err =>
          (r2, u2, effsA ++ e1 ++ e2 ++
            [Effect.sentMessage .admin (ERROR_INVITE_LINK_FAILED request.user_id gen_err)])
      else
        (r1, u1, effsA ++ e1 ++
          [Effect.sentMessage .admin (ERROR_APPROVE_FAILED request.user_id e)])

/-- `AdminHandlers.decline_request`: bare `decline_chat_join_request`
(a missing-join-request error is ignored), then status `declined`,
moderator-message deletion, decline note, and best-effort applicant DM;
any propagating `TelegramError` posts `ERROR_DECLINE_FAILED`. -/
def decline_request (reqs : List RequestRow) (users : List UserRow)
    (now : Int) (rid qmid : Nat) (o : AdminOracle) :
    List RequestRow × List UserRow × List Effect :=
  let effsA := [Effect.answeredCallback]
  match Request.get_by_id reqs rid with
  | none => (reqs, users, effsA ++ [Effect.editedMessage REQUEST_NOT_FOUND])
  | some request =>
    let effs := effsA ++ [Effect.declinedJoinRequest request.user_id]
    let declineExc : Option String :=
      match o.declineJoin.errStr with
      | none => none
      | some e => if isMissingJoinRequestError e then none else some e
    match declineExc with
    | some e =>
      (reqs, users, effs ++
        [Effect.sentMessage .admin (ERROR_DECLINE_FAILED request.user_id e)])
    | none =>
      let reqs1 := Request.update_status reqs rid "declined" (some qmid) now
      let effs := effs ++ [Effect.deletedAdminMessage qmid]
      match o.deleteMsg.errStr with
      | some e =>
        (reqs1, users, effs ++
          [Effect.sentMessage .admin (ERROR_DECLINE_FAILED request.user_id e)])
      | none =>
        let effs := effs ++
          [Effect.sentMessage .admin (ADMIN_DECLINED_MSG (pyStr request.first_name))]
        match o.sendAdminNote.raisesInSafeSend with
        | some e =>
          (reqs1, users, effs ++
            [Effect.sentMessage .admin (ERROR_DECLINE_FAILED request.user_id e)])
        | none =>
          let effs := effs ++ [Effect.sentMessage (.user request.user_id) USER_DECLINED_DM]
          match o.sendUserDM.raisesInSafeSend with
          | some e =>
            (reqs1, users, effs ++
              [Effect.sentMessage .admin (ERROR_DECLINE_FAILED request.user_id e)])
          | none => (reqs1, users, effs)

/-- The per-recipient body of `broadcast_message`'s loop: attempt the
DM through `_safe_send_message`; a non-`None` result bumps
`successful_sends` and refreshes `last_contacted_at`, a `None` result
bumps `failed_sends` and deactivates the recipient; a re-raised
`TelegramError` aborts the loop (propagating to the app error handler).
Returns (table, successful_sends, failed_sends, effects, raised). -/
def broadcast_loop (users : List UserRow) (todo : List UserRow) (text : String)
    (sendRes : Nat → CallResult) (now : Int) :
    List UserRow × Nat × Nat × List Effect × Option String :=
  match todo with
  | [] => (users, 0, 0, [], none)
  | u :: rest =>
    let eff := Effect.sentMessage (.user u.user_id) text
    match (sendRes u.user_id).raisesInSafeSend with
    | some e => (users, 0, 0, [eff], some e)
    | none =>
      if (sendRes u.user_id).isOk then
        let users1 := Users.update_last_contacted users u.user_id now
        let (usersF, s, f, effs, exc) := broadcast_loop users1 rest text sendRes now
        (usersF, s + 1, f, eff :: effs, exc)
      else
        let users1 := Users.deactivate users u.user_id
        let (usersF, s, f, effs, exc) := broadcast_loop users1 rest text sendRes now
        (usersF, s, f + 1, eff :: effs, exc)

/-- `AdminHandlers.broadcast_message`.  `message_text` is the command
argument after `update.message.text.replace("/broadcast", "").strip()`;
`isAdmin` is the live `_check_admin_permission` result.  On a complete
run the success/failure/total summary is reported to the caller. -/
def broadcast_message (isAdmin : Bool) (message_text : String) (users : List UserRow)
    (sendRes : Nat → CallResult) (now : Int) : List UserRow × List Effect :=
  if !isAdmin then
    (users, [Effect.sentMessage .caller ADMIN_ONLY_COMMAND])
  else if message_text == "" then
    (users, [Effect.sentMessage .caller BROADCAST_NO_MESSAGE])
  else
    let activeUsers := Users.get_all_active users
    if activeUsers.isEmpty then
      (users, [Effect.sentMessage .caller BROADCAST_NO_USERS])
    else
      let (usersF, s, f, effs, exc) := broadcast_loop users activeUsers message_text sendRes now
      match exc with
      | some _ => (usersF, effs)
      | none =>
        (usersF, effs ++
          [Effect.sentMessage .caller (broadcast_summary s f activeUsers.length)])

/-! ## Expiry sweeper (`src/database.py`, `src/bot.py`) -/

/-- `Database.get_expired_requests`: pending rows with
`created_at < now - timedelta(hours=24)` (strict comparison). -/
def get_expired_requests (reqs : List RequestRow) (now : Int) : List RequestRow :=
  let cutoff_time := now - 24 * 60 * 60
  reqs.filter (fun r => r.status == "pending" && decide (r.created_at < cutoff_time))

/-- One iteration of `TelegramBot.check_expired_requests`: mark the row
`expired` (keeping its recorded moderator message id), and when that id
is truthy delete the moderator message and—only if the deletion
succeeded—post the expiry note (one shared `try`); the applicant DM is
attempted in its own `try`.  All `TelegramError`s are logged, not
raised. -/
def sweep_one (reqs : List RequestRow) (r : RequestRow) (now : Int)
    (deleteRes : Nat → CallResult) : List RequestRow × List Effect :=
  let reqs1 := Request.update_status reqs r.id "expired" r.admin_message_id now
  let effs :=
    match r.admin_message_id with
    | some m =>
      if m != 0 then
        Effect.deletedAdminMessage m ::
          (if (deleteRes r.id).isOk then
            [Effect.sentMessage .admin (expired_admin_note (pyStr r.first_name))]
          else [])
      else []
    | none => []
  (reqs1, effs ++ [Effect.sentMessage (.user r.user_id) EXPIRED_USER_MSG])

/-- The `for request in expired_requests` loop of
`check_expired_requests`. -/
def sweep_loop (reqs : List RequestRow) (todo : List RequestRow) (now : Int)
    (deleteRes : Nat → CallResult) : List RequestRow × List Effect :=
  match todo with
  | [] => (reqs, [])
  | r :: rest =>
    let (reqs1, effs1) := sweep_one reqs r now deleteRes
    let (reqsF, effsF) := sweep_loop reqs1 rest now deleteRes
    (reqsF, effs1 ++ effsF)

/-- `TelegramBot.check_expired_requests`: fetch the candidate set once,
then process each candidate. -/
def check_expired_requests (reqs : List RequestRow) (now : Int)
    (deleteRes : Nat → CallResult) : List RequestRow × List Effect :=
  sweep_loop reqs (get_expired_requests reqs now) now deleteRes

/-! ## Helper lemmas about the store operations -/

/-- `find?` commutes with a row transformer that does not change the
fields the predicate looks at. -/
theorem find_map_congr {α : Type} (f : α → α) (p : α → Bool)
    (h : ∀ a, p (f a) = p a) (l : List α) :
    (l.map f).find? p = (l.find? p).map f := by
  rw [List.find?_map]
  have hpf : p ∘ f = p := funext h
  rw [hpf]

/-- `find?` returns the unique element satisfying the predicate. -/
theorem find_eq_some_of_unique {α : Type} (p : α → Bool) (l : List α) (u : α)
    (hu : u ∈ l) (hp : p u = true) (hother : ∀ a ∈ l, a ≠ u → p a = false) :
    l.find? p = some u := by
  induction l with
  | nil => cases hu
  | cons b t ih =>
    by_cases hb : b = u
    · subst hb
      rw [List.find?_cons_of_pos _ hp]
    · have hpb : p b = false := hother b (List.mem_cons_self b t) hb
      rw [List.find?_cons_of_neg _ (by simp [hpb])]
      have hut : u ∈ t := by
        rcases List.mem_cons.mp hu with h | h
        · exact absurd h.symm hb
        · exact h
      exact ih hut (fun a ha hne => hother a (List.mem_cons_of_mem b ha) hne)

theorem Request.get_by_id_update_status {reqs : List RequestRow} {rid : Nat}
    {r : RequestRow} (status : String) (m : Option Nat) (now : Int)
    (h : Request.get_by_id reqs rid = some r) :
    Request.get_by_id (Request.update_status reqs rid status m now) rid =
      some (if status == "approved" then
              { r with status := status, approved_at := some now, admin_message_id := m }
            else { r with status := status, admin_message_id := m }) := by
  unfold Request.get_by_id Request.update_status at *
  have hp : (r.id == rid) = true := by simpa using List.find?_some h
  rw [find_map_congr]
  · rw [h]
    simp only [Option.map_some']
    rw [if_pos hp]
  · intro a
    by_cases ha : (a.id == rid) = true
    · rw [if_pos ha]
      split <;> simp
    · rw [if_neg ha]

theorem Request.get_by_id_update_user_explanation {reqs : List RequestRow}
    {rid : Nat} {r : RequestRow} (ex : String)
    (h : Request.get_by_id reqs rid = some r) :
    Request.get_by_id (Request.update_user_explanation reqs rid ex) rid =
      some { r with user_explanation := some ex } := by
  unfold Request.get_by_id Request.update_user_explanation at *
  have hp : (r.id == rid) = true := by simpa using List.find?_some h
  rw [find_map_congr]
  · rw [h]
    simp only [Option.map_some']
    rw [if_pos hp]
  · intro a
    by_cases ha : (a.id == rid) = true
    · rw [if_pos ha]
    · rw [if_neg ha]

theorem Request.get_by_user_id_create (reqs : List RequestRow) (nextId : Nat)
    (now : Int) (uid : Nat) (un fn ln : Option String) :
    Request.get_by_user_id (Request.create reqs nextId now uid un fn ln) uid =
      some (Request.freshRow nextId now uid un fn ln) := by
  unfold Request.get_by_user_id Request.create
  rw [List.find?_append]
  have h1 : (reqs.filter fun r => r.user_id != uid).find? (fun r => r.user_id == uid)
      = none := by
    rw [List.find?_eq_none]
    intro x hx
    have := (List.mem_filter.mp hx).2
    simp only [bne_iff_ne, ne_eq] at this
    simp [this]
  rw [h1]
  simp [Request.freshRow]

theorem Request.filter_create (reqs : List RequestRow) (nextId : Nat) (now : Int)
    (uid : Nat) (un fn ln : Option String) :
    (Request.create reqs nextId now uid un fn ln).filter (fun q => q.user_id == uid)
      = [Request.freshRow nextId now uid un fn ln] := by
  unfold Request.create
  rw [List.filter_append]
  have h1 : (reqs.filter fun r => r.user_id != uid).filter (fun q => q.user_id == uid)
      = [] := by
    rw [List.filter_eq_nil_iff]
    intro a ha
    have := (List.mem_filter.mp ha).2
    simp only [bne_iff_ne, ne_eq] at this
    simp [this]
  rw [h1]
  simp [Request.freshRow]

theorem Users.get_by_id_update {users : List UserRow} {uid : Nat} {u : UserRow}
    (un fn ln : Option String) (now : Int)
    (h : Users.get_by_id users uid = some u) :
    Users.get_by_id (Users.update users uid un fn ln now) uid =
      some { u with username := un, first_name := fn, last_name := ln,
                    approved_at := now } := by
  unfold Users.get_by_id Users.update at *
  have hp : (u.user_id == uid && u.is_active) = true := by simpa using List.find?_some h
  rw [find_map_congr]
  · rw [h]
    simp only [Option.map_some']
    rw [if_pos (Bool.and_eq_true _ _ ▸ hp).1]
  · intro a
    by_cases ha : (a.user_id == uid) = true
    · rw [if_pos ha]
    · rw [if_neg ha]

theorem Users.get_by_id_create (users : List UserRow) (nextId : Nat) (now : Int)
    (uid : Nat) (un fn ln : Option String) :
    Users.get_by_id (Users.create users nextId now uid un fn ln) uid =
      some (Users.freshRow nextId now uid un fn ln) := by
  unfold Users.get_by_id Users.create
  rw [List.find?_append]
  have h1 : (users.filter fun v => v.user_id != uid).find?
      (fun v => v.user_id == uid && v.is_active) = none := by
    rw [List.find?_eq_none]
    intro x hx
    have := (List.mem_filter.mp hx).2
    simp only [bne_iff_ne, ne_eq] at this
    simp [this]
  rw [h1]
  simp [Users.freshRow]

/-- After any `upsert`, an active row for the upserted identity exists. -/
theorem Users.get_by_id_upsert (users : List UserRow) (nextId : Nat) (now : Int)
    (uid : Nat) (un fn ln : Option String) :
    ∃ u, Users.get_by_id ((Users.upsert users nextId now uid un fn ln).1) uid
      = some u := by
  unfold Users.upsert
  cases h : Users.get_by_id users uid with
  | some e => exact ⟨_, Users.get_by_id_update un fn ln now h⟩
  | none => exact ⟨_, Users.get_by_id_create users nextId now uid un fn ln⟩

/-! ## Helper lemmas about the expiry sweeper -/

/-- Row ids survive a status update. -/
theorem Request.update_status_id_mem (reqs : List RequestRow) (rid : Nat)
    (status : String) (m : Option Nat) (now : Int) {i : Nat}
    (h : ∃ q ∈ reqs, q.id = i) :
    ∃ q ∈ Request.update_status reqs rid status m now, q.id = i := by
  obtain ⟨q, hq, hqi⟩ := h
  unfold Request.update_status
  refine ⟨_, List.mem_map_of_mem _ hq, ?_⟩
  by_cases hc : (q.id == rid) = true
  · rw [if_pos hc]
    split <;> exact hqi
  · rw [if_neg hc]
    exact hqi

/-- A row already marked `expired` stays `expired` under any further
update to `expired`. -/
theorem Request.update_status_expired_mem (reqs : List RequestRow) (rid : Nat)
    (m : Option Nat) (now : Int) {i : Nat}
    (h : ∃ q ∈ reqs, q.id = i ∧ q.status = "expired") :
    ∃ q ∈ Request.update_status reqs rid "expired" m now,
      q.id = i ∧ q.status = "expired" := by
  obtain ⟨q, hq, hqi, hqs⟩ := h
  unfold Request.update_status
  refine ⟨_, List.mem_map_of_mem _ hq, ?_⟩
  by_cases hc : (q.id == rid) = true
  · rw [if_pos hc, if_neg (by decide)]
    exact ⟨hqi, rfl⟩
  · rw [if_neg hc]
    exact ⟨hqi, hqs⟩

/-- Updating a present id to `expired` yields a row with that id marked
`expired`. -/
theorem Request.update_status_self_expired (reqs : List RequestRow)
    (m : Option Nat) (now : Int) {i : Nat} (h : ∃ q ∈ reqs, q.id = i) :
    ∃ q ∈ Request.update_status reqs i "expired" m now,
      q.id = i ∧ q.status = "expired" := by
  obtain ⟨q, hq, hqi⟩ := h
  unfold Request.update_status
  refine ⟨_, List.mem_map_of_mem _ hq, ?_⟩
  have hc : (q.id == i) = true := by simpa using hqi
  rw [if_pos hc, if_neg (by decide)]
  exact ⟨hqi, rfl⟩

theorem sweep_one_fst (reqs : List RequestRow) (r : RequestRow) (now : Int)
    (dRes : Nat → CallResult) :
    (sweep_one reqs r now dRes).1 =
      Request.update_status reqs r.id "expired" r.admin_message_id now := rfl

theorem sweep_loop_nil (reqs : List RequestRow) (now : Int)
    (dRes : Nat → CallResult) : sweep_loop reqs [] now dRes = (reqs, []) := rfl

theorem sweep_loop_cons (reqs : List RequestRow) (a : RequestRow)
    (rest : List RequestRow) (now : Int) (dRes : Nat → CallResult) :
    sweep_loop reqs (a :: rest) now dRes =
      ((sweep_loop (sweep_one reqs a now dRes).1 rest now dRes).1,
       (sweep_one reqs a now dRes).2 ++
         (sweep_loop (sweep_one reqs a now dRes).1 rest now dRes).2) := rfl

/-- An `expired` mark is preserved by the remaining loop iterations. -/
theorem sweep_loop_preserves_expired (now : Int) (dRes : Nat → CallResult) :
    ∀ (todo reqs : List RequestRow) {i : Nat},
      (∃ q ∈ reqs, q.id = i ∧ q.status = "expired") →
      ∃ q ∈ (sweep_loop reqs todo now dRes).1, q.id = i ∧ q.status = "expired" := by
  intro todo
  induction todo with
  | nil => intro reqs i h; simpa [sweep_loop_nil] using h
  | cons a rest ih =>
    intro reqs i h
    rw [sweep_loop_cons]
    exact ih _ (by
      rw [sweep_one_fst]
      exact Request.update_status_expired_mem _ _ _ _ h)

/-- Every candidate the loop processes ends marked `expired`. -/
theorem sweep_loop_marks_expired (now : Int) (dRes : Nat → CallResult) :
    ∀ (todo reqs : List RequestRow),
      (∀ r ∈ todo, ∃ q ∈ reqs, q.id = r.id) →
      ∀ r ∈ todo,
        ∃ q ∈ (sweep_loop reqs todo now dRes).1, q.id = r.id ∧ q.status = "expired" := by
  intro todo
  induction todo with
  | nil => intro reqs _ r hr; cases hr
  | cons a rest ih =>
    intro reqs hinv r hr
    rw [sweep_loop_cons]
    rcases List.mem_cons.mp hr with rfl | hr'
    · refine sweep_loop_preserves_expired now dRes rest _ ?_
      rw [sweep_one_fst]
      exact Request.update_status_self_expired _ _ _ (hinv r (List.mem_cons_self r rest))
    · refine ih _ (fun x hx => ?_) r hr'
      rw [sweep_one_fst]
      exact Request.update_status_id_mem _ _ _ _ _ (hinv x (List.mem_cons_of_mem a hx))

/-- The per-candidate outbound effects of one sweep run. -/
theorem sweep_loop_effects (now : Int) (dRes : Nat → CallResult) :
    ∀ (todo reqs : List RequestRow) (r : RequestRow), r ∈ todo →
      Effect.sentMessage (.user r.user_id) EXPIRED_USER_MSG ∈ (sweep_loop reqs todo now dRes).2
      ∧ (∀ m : Nat, r.admin_message_id = some m → m ≠ 0 →
          Effect.deletedAdminMessage m ∈ (sweep_loop reqs todo now dRes).2
          ∧ ((dRes r.id).isOk = true →
              Effect.sentMessage .admin (expired_admin_note (pyStr r.first_name))
                ∈ (sweep_loop reqs todo now dRes).2)) := by
  intro todo
  induction todo with
  | nil => intro reqs r hr; cases hr
  | cons a rest ih =>
    intro reqs r hr
    rw [sweep_loop_cons]
    rcases List.mem_cons.mp hr with rfl | hr'
    · constructor
      · simp [sweep_one]
      · intro m hm hm0
        have hm0' : (m != 0) = true := by simpa using hm0
        constructor
        · simp [sweep_one, hm, hm0']
        · intro hok
          simp [sweep_one, hm, hm0', hok]
    · have h := ih (sweep_one reqs a now dRes).1 r hr'
      refine ⟨by simp [h.1], fun m hm hm0 => ?_⟩
      have h2 := h.2 m hm hm0
      exact ⟨by simp [h2.1], fun hok => by simp [h2.2 hok]⟩

/-- No loop iteration attempts a decline at the membership authority. -/
theorem sweep_loop_no_decline (now : Int) (dRes : Nat → CallResult) (u : Nat) :
    ∀ (todo reqs : List RequestRow),
      Effect.declinedJoinRequest u ∉ (sweep_loop reqs todo now dRes).2 := by
  intro todo
  induction todo with
  | nil => intro reqs; simp [sweep_loop_nil]
  | cons a rest ih =>
    intro reqs
    rw [sweep_loop_cons]
    simp only [List.mem_append, not_or]
    refine ⟨?_, ih _⟩
    unfold sweep_one
    cases a.admin_message_id with
    | none => simp
    | some m =>
      by_cases hm : (m != 0) = true
      · by_cases hok : (dRes a.id).isOk = true <;> simp [hm, hok]
      · simp [hm]

/-! ## Claim theorems -/

/-- C1: for an applicant identity with an existing `pending` request
row, the entry command creates no new row, leaves the table (hence the
existing row and all its fields) unchanged, and replies only with the
pending notice. -/
theorem start_command_pending_no_change
    (reqs : List RequestRow) (nextId : Nat) (now : Int) (uid : Nat)
    (un fn ln : Option String) (r : RequestRow)
    (h : Request.get_by_user_id reqs uid = some r) (hp : r.status = "pending") :
    start_command false reqs nextId now uid un fn ln
      = (reqs, [Effect.sentMessage (.user uid) PENDING_REQUEST_MSG]) := by
  simp [start_command, isPendingOpt, h, hp]

/-- C1 witness: a concrete table with a pending row for applicant 5. -/
theorem start_command_pending_no_change_witness :
    (Request.get_by_user_id
        [⟨1, 5, none, none, none, "pending", 0, none, none, none⟩] 5
      = some ⟨1, 5, none, none, none, "pending", 0, none, none, none⟩)
    ∧ start_command false [⟨1, 5, none, none, none, "pending", 0, none, none, none⟩]
        2 100 5 none none none
      = ([⟨1, 5, none, none, none, "pending", 0, none, none, none⟩],
         [Effect.sentMessage (.user 5) PENDING_REQUEST_MSG]) :=
  ⟨by decide,
   start_command_pending_no_change
     [⟨1, 5, none, none, none, "pending", 0, none, none, none⟩] 2 100 5 none none none
     ⟨1, 5, none, none, none, "pending", 0, none, none, none⟩ (by decide) rfl⟩

/-- C9: the entry command for an applicant whose prior request is
`approved`/`declined`/`expired` replaces that row outright with a fresh
`pending` row (with `user_explanation` reset to NULL, hence no longer
any prior explanation). -/
theorem start_command_overwrites_terminal
    (reqs : List RequestRow) (nextId : Nat) (now : Int) (uid : Nat)
    (un fn ln : Option String) (r : RequestRow)
    (h : Request.get_by_user_id reqs uid = some r)
    (hs : r.status = "approved" ∨ r.status = "declined" ∨ r.status = "expired") :
    (start_command false reqs nextId now uid un fn ln).1.filter
        (fun q => q.user_id == uid) = [Request.freshRow nextId now uid un fn ln]
    ∧ Request.get_by_user_id (start_command false reqs nextId now uid un fn ln).1 uid
        = some (Request.freshRow nextId now uid un fn ln)
    ∧ (Request.freshRow nextId now uid un fn ln).status = "pending"
    ∧ (Request.freshRow nextId now uid un fn ln).user_explanation = none
    ∧ ∀ e : String, r.user_explanation = some e →
        (Request.freshRow nextId now uid un fn ln).user_explanation ≠ some e := by
  have hnp : (r.status == "pending") = false := by
    rcases hs with h1 | h1 | h1 <;> rw [h1] <;> decide
  have h1 : (start_command false reqs nextId now uid un fn ln).1
      = Request.create reqs nextId now uid un fn ln := by
    simp [start_command, isPendingOpt, h, hnp]
  rw [h1]
  refine ⟨Request.filter_create reqs nextId now uid un fn ln,
          Request.get_by_user_id_create reqs nextId now uid un fn ln, rfl, rfl, ?_⟩
  intro e _
  simp [Request.freshRow]

/-- C9 witness: a concrete table with an `approved` row carrying an old
explanation for applicant 5. -/
theorem start_command_overwrites_terminal_witness :
    (Request.get_by_user_id
        [⟨1, 5, none, none, none, "approved", 0, some 50, some 9, some "old"⟩] 5
      = some ⟨1, 5, none, none, none, "approved", 0, some 50, some 9, some "old"⟩)
    ∧ ((start_command false
          [⟨1, 5, none, none, none, "approved", 0, some 50, some 9, some "old"⟩]
          2 100 5 none none none).1.filter (fun q => q.user_id == 5)
        = [Request.freshRow 2 100 5 none none none]) :=
  ⟨by decide,
   (start_command_overwrites_terminal
     [⟨1, 5, none, none, none, "approved", 0, some 50, some 9, some "old"⟩] 2 100 5
     none none none
     ⟨1, 5, none, none, none, "approved", 0, some 50, some 9, some "old"⟩ (by decide)
     (Or.inl rfl)).1⟩

/-- C3 counterexample: a `pending` row whose `created_at` is exactly 24
hours before `now` is NOT in the sweeper's candidate set (the query
compares with a strict `<`), contradicting the claimed inclusive
boundary. -/
theorem get_expired_requests_boundary_cex :
    (⟨1, 5, none, none, none, "pending", 0, none, none, none⟩ : RequestRow)
      ∉ get_expired_requests
          [⟨1, 5, none, none, none, "pending", 0, none, none, none⟩] 86400 := by
  decide

/-- C3 (amended): the candidate set contains exactly the `pending` rows
created strictly before `now` minus the 24-hour timeout; a row exactly
at the cutoff or newer is excluded. -/
theorem get_expired_requests_mem (reqs : List RequestRow) (now : Int)
    (r : RequestRow) :
    r ∈ get_expired_requests reqs now ↔
      r ∈ reqs ∧ r.status = "pending" ∧ r.created_at < now - 24 * 60 * 60 := by
  simp [get_expired_requests, List.mem_filter, and_assoc]

/-- C7: every invocation of the `/add` self-registration command leaves
the users table unchanged and replies with the error message, because
the handler calls `db.users.upsert_user`, an attribute the `Users`
class does not define (`AttributeError`, swallowed by the blanket
`except Exception`).  In particular a second call never reports
already-registered and no row is ever upserted. -/
theorem add_command_always_error_reply (users : List UserRow) (nextId : Nat)
    (now : Int) (uid : Nat) (un fn ln : Option String) :
    add_command users nextId now uid un fn ln
      = (users, [Effect.sentMessage (.user uid) ADD_ERROR_MSG]) := by
  simp only [add_command]
  rw [if_neg (by decide)]

/-- C6: at the failing input—one active recipient whose DM fails with a
`NetworkError` (a swallowed transient error, not a permission/blocked
error)—the broadcast deactivates that recipient anyway and reports
0 sent / 1 failed / 1 total. -/
theorem broadcast_network_error_deactivates :
    broadcast_message true "hello" [⟨1, 7, none, none, none, 0, some 5, true⟩]
        (fun _ => CallResult.networkError) 10
      = ([⟨1, 7, none, none, none, 0, some 5, false⟩],
         [Effect.sentMessage (.user 7) "hello",
          Effect.sentMessage .caller (broadcast_summary 0 1 1)]) := by
  rfl

/-- `submit_to_admins` never touches `user_explanation` (its only write
is `update_status(request_id, "pending", message_id)` on success). -/
theorem submit_to_admins_preserves_explanation
    (reqs : List RequestRow) (rid : Nat) (ex : String) (sendRes : CallResult)
    (mid : Nat) (now : Int) (r : RequestRow)
    (hr : Request.get_by_id reqs rid = some r) :
    ∃ r2, Request.get_by_id (submit_to_admins reqs rid ex sendRes mid now).1 rid
        = some r2 ∧ r2.user_explanation = r.user_explanation := by
  cases sendRes with
  | ok =>
    have hy := Request.get_by_id_update_status "pending" (some mid) now hr
    rw [if_neg (by decide)] at hy
    exact ⟨_, hy, rfl⟩
  | timedOut => exact ⟨r, hr, rfl⟩
  | networkError => exact ⟨r, hr, rfl⟩
  | forbidden => exact ⟨r, hr, rfl⟩
  | tgError e => exact ⟨r, hr, rfl⟩

/-- After completing the application, the request row carries the
computed explanation. -/
theorem handle_complete_application_persists
    (reqs : List RequestRow) (request_id : Nat) (sel answer : String)
    (sendRes : CallResult) (admin_msg_id : Nat) (now : Int) (r : RequestRow)
    (hr : Request.get_by_id reqs request_id = some r) :
    ∃ r2, Request.get_by_id
        (handle_complete_application reqs request_id sel answer sendRes admin_msg_id now).1
        request_id = some r2
      ∧ r2.user_explanation = some (computeExplanation sel answer) := by
  have hx := Request.get_by_id_update_user_explanation (computeExplanation sel answer) hr
  obtain ⟨r2, h2, h2e⟩ := submit_to_admins_preserves_explanation _ request_id
    (computeExplanation sel answer) sendRes admin_msg_id now _ hx
  exact ⟨r2, h2, h2e⟩

/-- C4: completing the conversation with a catalog category `c` and
answer `a` persists `template[c].format(answer=a)` as the explanation;
with a key matching no catalog entry, the persisted explanation is the
fallback string containing the raw key token and the raw answer. -/
theorem complete_application_explanation
    (reqs : List RequestRow) (request_id : Nat) (answer : String)
    (sendRes : CallResult) (admin_msg_id : Nat) (now : Int)
    (c : String) (cfg : OptionConfig) (r : RequestRow)
    (hc : (c, cfg) ∈ OPTIONS_CONFIG)
    (hr : Request.get_by_id reqs request_id = some r) :
    (∃ r2, Request.get_by_id
        (handle_complete_application reqs request_id c answer sendRes admin_msg_id now).1
        request_id = some r2
      ∧ r2.user_explanation = some (pyFormatAnswer cfg.explanation_template answer))
    ∧ ∀ c2 : String, (∀ p ∈ OPTIONS_CONFIG, p.1 ≠ c2) →
        ∃ r3, Request.get_by_id
            (handle_complete_application reqs request_id c2 answer sendRes admin_msg_id now).1
            request_id = some r3
          ∧ r3.user_explanation
              = some ("Unknown option \x27" ++ c2 ++ "\x27: " ++ answer) := by
  constructor
  · have hfind : OPTIONS_CONFIG.find? (fun p => p.1 == c) = some (c, cfg) := by
      simp only [OPTIONS_CONFIG, List.mem_cons, List.not_mem_nil, or_false] at hc
      rcases hc with h | h | h | h <;>
        (rw [Prod.mk.injEq] at h; obtain ⟨rfl, rfl⟩ := h; decide)
    have hce : computeExplanation c answer
        = pyFormatAnswer cfg.explanation_template answer := by
      unfold computeExplanation
      rw [hfind]
    obtain ⟨r2, h2, h2e⟩ := handle_complete_application_persists reqs request_id c
      answer sendRes admin_msg_id now r hr
    exact ⟨r2, h2, by rw [h2e, hce]⟩
  · intro c2 hnot
    have hfind : OPTIONS_CONFIG.find? (fun p => p.1 == c2) = none := by
      rw [List.find?_eq_none]
      intro p hp
      simp [hnot p hp]
    have hce : computeExplanation c2 answer
        = "Unknown option \x27" ++ c2 ++ "\x27: " ++ answer := by
      unfold computeExplanation
      rw [hfind]
    obtain ⟨r3, h3, h3e⟩ := handle_complete_application_persists reqs request_id c2
      answer sendRes admin_msg_id now r hr
    exact ⟨r3, h3, by rw [h3e, hce]⟩

/-- C4 witness: category `invited` with answer `alice123` persists
`Invited by: alice123`. -/
theorem complete_application_explanation_witness :
    (("invited",
      ({ button_text := "👥 Someone invited me",
         question := "What is the Telegram username of the person who invited you to the group?",
         explanation_template := "Invited by: \x7banswer\x7d" } : OptionConfig))
        ∈ OPTIONS_CONFIG)
    ∧ (Request.get_by_id [⟨1, 5, none, none, none, "pending", 0, none, none, none⟩] 1
        = some ⟨1, 5, none, none, none, "pending", 0, none, none, none⟩)
    ∧ ∃ r2, Request.get_by_id
        (handle_complete_application
          [⟨1, 5, none, none, none, "pending", 0, none, none, none⟩]
          1 "invited" "alice123" CallResult.ok 77 100).1 1 = some r2
      ∧ r2.user_explanation = some (pyFormatAnswer "Invited by: \x7banswer\x7d" "alice123") :=
  ⟨by decide, by decide,
   (complete_application_explanation
     [⟨1, 5, none, none, none, "pending", 0, none, none, none⟩] 1 "alice123"
     CallResult.ok 77 100 "invited"
     { button_text := "👥 Someone invited me",
       question := "What is the Telegram username of the person who invited you to the group?",
       explanation_template := "Invited by: \x7banswer\x7d" }
     ⟨1, 5, none, none, none, "pending", 0, none, none, none⟩
     (by decide) (by decide)).1⟩

/-- C10: with `UNIQUE(user_id)` in force, `upsert` treats an inactive
row as absent (the active-filtered lookup returns nothing) and takes
the create/replace path, leaving an active row with
`last_contacted_at` reset to NULL; for an active row it updates in
place, preserving `id`, `last_contacted_at` and the active flag while
refreshing the display-name fields. -/
theorem upsert_inactive_reactivates_active_preserves
    (users : List UserRow) (nextId : Nat) (now : Int) (uid : Nat)
    (un fn ln : Option String) (u : UserRow)
    (huniq : users.Pairwise (fun a b => a.user_id ≠ b.user_id))
    (hu : u ∈ users) (hid : u.user_id = uid) :
    (u.is_active = false →
      Users.get_by_id users uid = none
      ∧ (Users.upsert users nextId now uid un fn ln).1
          = Users.create users nextId now uid un fn ln
      ∧ Users.get_by_id (Users.upsert users nextId now uid un fn ln).1 uid
          = some (Users.freshRow nextId now uid un fn ln)
      ∧ (Users.freshRow nextId now uid un fn ln).is_active = true
      ∧ (Users.freshRow nextId now uid un fn ln).last_contacted_at = none)
    ∧ (u.is_active = true →
      Users.get_by_id users uid = some u
      ∧ ∃ u2, Users.get_by_id (Users.upsert users nextId now uid un fn ln).1 uid
            = some u2
        ∧ u2.id = u.id
        ∧ u2.username = un ∧ u2.first_name = fn ∧ u2.last_name = ln
        ∧ u2.last_contacted_at = u.last_contacted_at
        ∧ u2.is_active = true) := by
  have hsym : Symmetric (fun a b : UserRow => a.user_id ≠ b.user_id) :=
    fun a b h => fun he => h he.symm
  constructor
  · intro hinact
    have hnone : Users.get_by_id users uid = none := by
      unfold Users.get_by_id
      rw [List.find?_eq_none]
      intro x hx
      by_cases hxu : x = u
      · subst hxu
        simp [hinact]
      · have hne : x.user_id ≠ u.user_id := List.Pairwise.forall hsym huniq hx hu hxu
        rw [hid] at hne
        simp [hne]
    have hup : (Users.upsert users nextId now uid un fn ln).1
        = Users.create users nextId now uid un fn ln := by
      simp [Users.upsert, hnone]
    refine ⟨hnone, hup, ?_, rfl, rfl⟩
    rw [hup]
    exact Users.get_by_id_create users nextId now uid un fn ln
  · intro hact
    have hsome : Users.get_by_id users uid = some u := by
      unfold Users.get_by_id
      apply find_eq_some_of_unique _ _ _ hu
      · simp [hid, hact]
      · intro a ha hne
        have hne2 : a.user_id ≠ u.user_id := List.Pairwise.forall hsym huniq ha hu hne
        rw [hid] at hne2
        simp [hne2]
    have hup : (Users.upsert users nextId now uid un fn ln).1
        = Users.update users uid un fn ln now := by
      simp [Users.upsert, hsome]
    refine ⟨hsome, ?_⟩
    rw [hup]
    exact ⟨_, Users.get_by_id_update un fn ln now hsome, rfl, rfl, rfl, rfl, rfl, hact⟩

/-- C10 witness: an inactive row for identity 7 is ignored by the
lookup and replaced by a fresh active row; an active row for identity 8
is updated in place. -/
theorem upsert_inactive_reactivates_witness :
    (Users.get_by_id [⟨1, 7, none, none, none, 0, some 44, false⟩] 7 = none
      ∧ (Users.upsert [⟨1, 7, none, none, none, 0, some 44, false⟩] 2 100 7
          (some "u") none none).1
        = Users.create [⟨1, 7, none, none, none, 0, some 44, false⟩] 2 100 7
            (some "u") none none
      ∧ Users.get_by_id (Users.upsert [⟨1, 7, none, none, none, 0, some 44, false⟩]
          2 100 7 (some "u") none none).1 7
        = some (Users.freshRow 2 100 7 (some "u") none none)
      ∧ (Users.freshRow 2 100 7 (some "u") none none).is_active = true
      ∧ (Users.freshRow 2 100 7 (some "u") none none).last_contacted_at = none)
    ∧ (Users.get_by_id [⟨1, 8, none, none, none, 0, some 44, true⟩] 8
        = some ⟨1, 8, none, none, none, 0, some 44, true⟩
      ∧ ∃ u2, Users.get_by_id (Users.upsert [⟨1, 8, none, none, none, 0, some 44, true⟩]
            2 100 8 (some "u") none none).1 8 = some u2
        ∧ u2.id = (⟨1, 8, none, none, none, 0, some 44, true⟩ : UserRow).id
        ∧ u2.username = some "u" ∧ u2.first_name = none ∧ u2.last_name = none
        ∧ u2.last_contacted_at
            = (⟨1, 8, none, none, none, 0, some 44, true⟩ : UserRow).last_contacted_at
        ∧ u2.is_active = true) :=
  ⟨(upsert_inactive_reactivates_active_preserves
      [⟨1, 7, none, none, none, 0, some 44, false⟩] 2 100 7 (some "u") none none
      ⟨1, 7, none, none, none, 0, some 44, false⟩ (by decide) (by decide) rfl).1 rfl,
   (upsert_inactive_reactivates_active_preserves
      [⟨1, 8, none, none, none, 0, some 44, true⟩] 2 100 8 (some "u") none none
      ⟨1, 8, none, none, none, 0, some 44, true⟩ (by decide) (by decide) rfl).2 rfl⟩

/-- C2: a successful Approve press leaves the request row `approved`
with a non-null `approved_at` and an ApprovedUser row present for the
applicant identity; a successful Decline press leaves the row
`declined` and does not touch the users table at all. -/
theorem approve_decline_terminal_state
    (reqs : List RequestRow) (users : List UserRow) (nextUid : Nat) (now : Int)
    (rid qmid : Nat) (o : AdminOracle) (r : RequestRow)
    (hr : Request.get_by_id reqs rid = some r)
    (hA : o.directApprove = CallResult.ok)
    (hDec : o.declineJoin = CallResult.ok)
    (hDel : o.deleteMsg = CallResult.ok)
    (hN : o.sendAdminNote.raisesInSafeSend = none)
    (hD : o.sendUserDM.raisesInSafeSend = none) :
    (∃ r2, Request.get_by_id (approve_request reqs users nextUid now rid qmid o).1 rid
        = some r2 ∧ r2.status = "approved" ∧ r2.approved_at = some now)
    ∧ (∃ u2, Users.get_by_id (approve_request reqs users nextUid now rid qmid o).2.1
        r.user_id = some u2)
    ∧ (∃ r3, Request.get_by_id (decline_request reqs users now rid qmid o).1 rid
        = some r3 ∧ r3.status = "declined")
    ∧ (decline_request reqs users now rid qmid o).2.1 = users := by
  have hA1 : (approve_request reqs users nextUid now rid qmid o).1
      = Request.update_status reqs rid "approved" (some qmid) now := by
    simp [approve_request, handle_direct_approval, complete_approval, hr, hA, hDel,
      hN, hD, CallResult.errStr]
  have hA2 : (approve_request reqs users nextUid now rid qmid o).2.1
      = (Users.upsert users nextUid now r.user_id r.username r.first_name
          r.last_name).1 := by
    simp [approve_request, handle_direct_approval, complete_approval, hr, hA, hDel,
      hN, hD, CallResult.errStr]
  have hD1 : (decline_request reqs users now rid qmid o).1
      = Request.update_status reqs rid "declined" (some qmid) now := by
    simp [decline_request, hr, hDec, hDel, hN, hD, CallResult.errStr]
  have hD2 : (decline_request reqs users now rid qmid o).2.1 = users := by
    simp [decline_request, hr, hDec, hDel, hN, hD, CallResult.errStr]
  have hr2 := Request.get_by_id_update_status "approved" (some qmid) now hr
  rw [if_pos (by decide)] at hr2
  have hr3 := Request.get_by_id_update_status "declined" (some qmid) now hr
  rw [if_neg (by decide)] at hr3
  refine ⟨?_, ?_, ?_, hD2⟩
  · exact ⟨{ r with status := "approved", approved_at := some now, admin_message_id := some qmid },
      by rw [hA1]; exact hr2, rfl, rfl⟩
  · rw [hA2]
    exact Users.get_by_id_upsert users nextUid now r.user_id r.username r.first_name
      r.last_name
  · exact ⟨{ r with status := "declined", admin_message_id := some qmid },
      by rw [hD1]; exact hr3, rfl⟩

/-- C2 witness: a concrete pending request for applicant 5 with an
all-successful oracle. -/
theorem approve_decline_terminal_state_witness :
    (Request.get_by_id [⟨1, 5, none, some "Bob", none, "pending", 0, none, none, none⟩] 1
      = some ⟨1, 5, none, some "Bob", none, "pending", 0, none, none, none⟩)
    ∧ (∃ r2, Request.get_by_id
        (approve_request [⟨1, 5, none, some "Bob", none, "pending", 0, none, none, none⟩]
          [] 1 100 1 9 ⟨.ok, .ok, .ok, "L", .ok, .ok, .ok⟩).1 1
        = some r2 ∧ r2.status = "approved" ∧ r2.approved_at = some 100) :=
  ⟨by decide,
   (approve_decline_terminal_state
     [⟨1, 5, none, some "Bob", none, "pending", 0, none, none, none⟩] [] 1 100 1 9
     ⟨.ok, .ok, .ok, "L", .ok, .ok, .ok⟩
     ⟨1, 5, none, some "Bob", none, "pending", 0, none, none, none⟩
     (by decide) rfl rfl rfl rfl rfl).1⟩

/-- C8: on the Approve fallback path, when link generation itself
raises, the handler posts `ERROR_INVITE_LINK_FAILED` (naming the
applicant identity and the raw error) to the moderator channel and
leaves both tables untouched, so the request row keeps its `pending`
status. -/
theorem approve_invite_link_failure
    (reqs : List RequestRow) (users : List UserRow) (nextUid : Nat) (now : Int)
    (rid qmid : Nat) (o : AdminOracle) (r : RequestRow) (e gen : String)
    (hr : Request.get_by_id reqs rid = some r)
    (hd : o.directApprove = CallResult.tgError e)
    (he : isMissingJoinRequestError e = true)
    (hl : o.createInvite = CallResult.tgError gen) :
    (approve_request reqs users nextUid now rid qmid o).1 = reqs
    ∧ (approve_request reqs users nextUid now rid qmid o).2.1 = users
    ∧ Effect.sentMessage .admin (ERROR_INVITE_LINK_FAILED r.user_id gen)
        ∈ (approve_request reqs users nextUid now rid qmid o).2.2
    ∧ Request.get_by_id (approve_request reqs users nextUid now rid qmid o).1 rid
        = some r := by
  refine ⟨?_, ?_, ?_, ?_⟩ <;>
    simp [approve_request, handle_direct_approval, handle_invite_link_approval,
      hr, hd, he, hl, CallResult.errStr]

/-- C8 witness: the platform reports `CHAT_JOIN_REQUEST_NOT_FOUND` on
the direct grant and `boom` on link creation; the pending row for
applicant 5 is untouched and the failure note is posted. -/
theorem approve_invite_link_failure_witness :
    (Request.get_by_id [⟨1, 5, none, some "Bob", none, "pending", 0, none, none, none⟩] 1
      = some ⟨1, 5, none, some "Bob", none, "pending", 0, none, none, none⟩)
    ∧ isMissingJoinRequestError "CHAT_JOIN_REQUEST_NOT_FOUND" = true
    ∧ (approve_request [⟨1, 5, none, some "Bob", none, "pending", 0, none, none, none⟩]
        [] 1 100 1 9
        ⟨.tgError "CHAT_JOIN_REQUEST_NOT_FOUND", .ok, .tgError "boom", "", .ok, .ok, .ok⟩).1
      = [⟨1, 5, none, some "Bob", none, "pending", 0, none, none, none⟩] :=
  ⟨by decide, by decide,
   (approve_invite_link_failure
     [⟨1, 5, none, some "Bob", none, "pending", 0, none, none, none⟩] [] 1 100 1 9
     ⟨.tgError "CHAT_JOIN_REQUEST_NOT_FOUND", .ok, .tgError "boom", "", .ok, .ok, .ok⟩
     ⟨1, 5, none, some "Bob", none, "pending", 0, none, none, none⟩
     "CHAT_JOIN_REQUEST_NOT_FOUND" "boom" (by decide) rfl (by decide) rfl).1⟩

/-- C5 counterexample: on a concrete sweep over one candidate
(applicant 5, moderator message 9), the run performs no
`decline_chat_join_request` call at all — the effect log contains no
decline attempt for the applicant, contradicting the claimed
best-effort decline at the membership authority. -/
theorem check_expired_requests_no_decline_cex :
    ((⟨1, 5, none, some "Bob", none, "pending", 0, none, some 9, none⟩ : RequestRow)
      ∈ get_expired_requests
          [⟨1, 5, none, some "Bob", none, "pending", 0, none, some 9, none⟩] 90000)
    ∧ Effect.declinedJoinRequest 5
        ∉ (check_expired_requests
            [⟨1, 5, none, some "Bob", none, "pending", 0, none, some 9, none⟩] 90000
            (fun _ => CallResult.ok)).2 := by
  constructor
  · decide
  · decide

/-- C5 (amended): for every request in the sweeper's candidate set, one
sweep run marks the row `expired`, and—when a moderator message id is
recorded—deletes that message and (if the deletion succeeded) posts the
expiry note, and always attempts the applicant's expiry DM; no decline
is attempted at the external membership authority. -/
theorem check_expired_requests_behavior
    (reqs : List RequestRow) (now : Int) (dRes : Nat → CallResult)
    (r : RequestRow) (hr : r ∈ get_expired_requests reqs now) :
    (∃ q ∈ (check_expired_requests reqs now dRes).1, q.id = r.id ∧ q.status = "expired")
    ∧ Effect.sentMessage (.user r.user_id) EXPIRED_USER_MSG
        ∈ (check_expired_requests reqs now dRes).2
    ∧ (∀ m : Nat, r.admin_message_id = some m → m ≠ 0 →
        Effect.deletedAdminMessage m ∈ (check_expired_requests reqs now dRes).2
        ∧ ((dRes r.id).isOk = true →
            Effect.sentMessage .admin (expired_admin_note (pyStr r.first_name))
              ∈ (check_expired_requests reqs now dRes).2))
    ∧ ∀ u : Nat, Effect.declinedJoinRequest u ∉ (check_expired_requests reqs now dRes).2 := by
  have hinv : ∀ x ∈ get_expired_requests reqs now, ∃ q ∈ reqs, q.id = x.id := by
    intro x hx
    simp only [get_expired_requests] at hx
    exact ⟨x, (List.mem_filter.mp hx).1, rfl⟩
  have heff := sweep_loop_effects now dRes (get_expired_requests reqs now) reqs r hr
  exact ⟨sweep_loop_marks_expired now dRes (get_expired_requests reqs now) reqs hinv r hr,
         heff.1, heff.2,
         fun u => sweep_loop_no_decline now dRes u (get_expired_requests reqs now) reqs⟩

/-- C5 witness: the concrete candidate of the counterexample input is
marked expired, its moderator message 9 is deleted with the expiry note
posted, and the applicant is DMed. -/
theorem check_expired_requests_behavior_witness :
    ((⟨1, 5, none, some "Bob", none, "pending", 0, none, some 9, none⟩ : RequestRow)
      ∈ get_expired_requests
          [⟨1, 5, none, some "Bob", none, "pending", 0, none, some 9, none⟩] 90000)
    ∧ (∃ q ∈ (check_expired_requests
          [⟨1, 5, none, some "Bob", none, "pending", 0, none, some 9, none⟩] 90000
          (fun _ => CallResult.ok)).1, q.id = 1 ∧ q.status = "expired") :=
  ⟨by decide,
   (check_expired_requests_behavior
     [⟨1, 5, none, some "Bob", none, "pending", 0, none, some 9, none⟩] 90000
     (fun _ => CallResult.ok)
     ⟨1, 5, none, some "Bob", none, "pending", 0, none, some 9, none⟩ (by decide)).1⟩
